import Mathlib

/-!
Verification of the ledger/transaction core of the Royal Shore International
online-banking application (Django, `app/` package).

The development shallowly embeds the money-movement code paths:

* `app/models.py` — `Account` (balance, status, flags, limits),
  `Transaction` (type, amount, fee, status, balance snapshots),
  `TransactionLimit` (per-user-per-day counters), `Loan`,
  `Account.can_debit`;
* `app/signals.py` — the `post_save` handler `update_account_balance`;
* `app/forms.py` — `WithdrawalForm.clean`, `TransferForm.clean` and the
  account querysets of the movement forms;
* `app/serializers.py` — `DepositSerializer`, `WithdrawalSerializer`,
  `TransferSerializer.validate`, `LoanApplicationSerializer`;
* `app/views.py` — the web `deposit_view`, `withdrawal_view`,
  `transfer_view` (which create PENDING transactions);
* `app/api_views.py` — the REST `deposit_view`, `withdrawal_view`,
  `transfer_view` (which create COMPLETED transactions, but reference the
  attributes `Account.available_balance` / `Account.pending_balance` that
  the `Account` model does not define).

Money values are modelled as rationals: Python `decimal.Decimal` values are
exactly representable rationals, and `Decimal` addition, subtraction and
multiplication on the magnitudes occurring here are exact.  Where the default
decimal context's rounding (28 significant digits, `ROUND_HALF_EVEN`) is
observable — the divisions of `LoanApplicationSerializer.create` — it is
modelled explicitly by `decimalRound`.
-/

namespace RoyalShore

/-- The Account.ACCOUNT_STATUS choices from `app/models.py`. -/
inductive AccountStatus where
  | PENDING
  | ACTIVE
  | SUSPENDED
  | CLOSED
  | FROZEN
deriving DecidableEq

/-- The Transaction.TRANSACTION_TYPES choices from `app/models.py`. -/
inductive TxnType where
  | DEPOSIT
  | WITHDRAWAL
  | TRANSFER
  | PAYMENT
  | FEE
  | INTEREST
  | REFUND
  | REVERSAL
  | LOAN_DISBURSEMENT
  | LOAN_REPAYMENT
deriving DecidableEq

/-- The Transaction.TRANSACTION_STATUS choices from `app/models.py`. -/
inductive TxnStatus where
  | PENDING
  | PROCESSING
  | COMPLETED
  | FAILED
  | CANCELLED
  | REVERSED
deriving DecidableEq

/-- The fields of the `Account` model (`app/models.py`) that the movement
code paths read or write.  The model defines a single `balance` column; it
defines no `available_balance` and no `pending_balance` field. -/
structure Account where
  account_number : String
  balance : ℚ
  status : AccountStatus
  is_active : Bool
  is_frozen : Bool
  is_closed : Bool
  daily_withdrawal_limit : ℚ
  daily_transfer_limit : ℚ
  minimum_balance : ℚ
  overdraft_limit : ℚ
deriving DecidableEq

/-- The fields of `CustomUser` (`app/models.py`) consulted by the movement
paths. -/
structure CustomUser where
  can_make_transfers : Bool
  daily_transfer_limit : ℚ
deriving DecidableEq

/-- The fields of the `Transaction` model (`app/models.py`) relevant to the
ledger.  A missing beneficiary is the empty string. -/
structure Transaction where
  transaction_type : TxnType
  amount : ℚ
  fee : ℚ
  status : TxnStatus
  balance_before : ℚ
  balance_after : ℚ
  beneficiary_account_number : String
deriving DecidableEq

/-- The `TransactionLimit` model (`app/models.py`, lines 941-963): the
per-user-per-day movement counters. -/
structure TransactionLimit where
  daily_transfer_count : ℤ
  daily_transfer_amount : ℚ
  daily_withdrawal_count : ℤ
  daily_withdrawal_amount : ℚ
  monthly_transfer_amount : ℚ
  monthly_withdrawal_amount : ℚ
deriving DecidableEq

/-- Persistent state touched by one user's movement requests: the source
account row, that user's `TransactionLimit` row, and the transaction log. -/
structure BankState where
  account : Account
  limits : TransactionLimit
  txns : List Transaction
deriving DecidableEq

/-- The method Account.can_debit from `app/models.py` (lines 404-408): flag checks,
then `balance >= amount`.  The `status` column is not consulted. -/
def Account.can_debit (a : Account) (amount : ℚ) : Bool :=
  if a.is_active = false ∨ a.is_frozen = true ∨ a.is_closed = true then false
  else if amount ≤ a.balance then true else false

/-- The signal handler `update_account_balance` (`app/signals.py`, lines
125-144).  It runs on every `post_save` of a `Transaction`; when the saved
instance has status COMPLETED it recomputes the account balance from the
account's current balance (not from `balance_before`): credit types add
`amount`, debit types subtract `amount + fee`, other types leave the balance
alone.  There is no check that the instance was already processed. -/
def update_account_balance (saved : Transaction) (account : Account) : Account :=
  if saved.status = TxnStatus.COMPLETED then
    let new_balance :=
      if saved.transaction_type ∈
          [TxnType.DEPOSIT, TxnType.INTEREST, TxnType.REFUND, TxnType.LOAN_DISBURSEMENT] then
        account.balance + saved.amount
      else if saved.transaction_type ∈
          [TxnType.WITHDRAWAL, TxnType.TRANSFER, TxnType.PAYMENT, TxnType.FEE,
            TxnType.LOAN_REPAYMENT] then
        account.balance - (saved.amount + saved.fee)
      else
        account.balance
    { account with balance := new_balance }
  else account

/-- Saving a `Transaction` row runs the `post_save` receivers of
`app/signals.py`; the only one that touches persistent ledger state is
`update_account_balance` (identifier generation and notifications do not
touch the account or the counters). -/
def transaction_post_save (saved : Transaction) (st : BankState) : BankState :=
  { st with account := update_account_balance saved st.account }

/-- An administrator editing a `Transaction` in the Django admin
(`app/admin.py` registers the model with no customisation) and setting its
status to COMPLETED: the row is updated and saved, which fires the
`post_save` receivers.  No code updates the row's `balance_after`. -/
def admin_mark_completed (st : BankState) (i : ℕ) : BankState :=
  match st.txns[i]? with
  | none => st
  | some t =>
    let t2 := { t with status := TxnStatus.COMPLETED }
    transaction_post_save t2 { st with txns := st.txns.set i t2 }

/-- Validation errors raised by `WithdrawalForm.clean` (`app/forms.py`,
lines 718-742). -/
inductive WithdrawalError where
  | InsufficientFunds
  | LimitExceeded
  | BelowMinimumBalance
deriving DecidableEq

/-- The method WithdrawalForm.clean (`app/forms.py`, lines 718-742): raises the first
applicable `ValidationError` among insufficient funds, daily withdrawal
limit, and minimum balance. -/
def WithdrawalForm_clean (account : Account) (amount : ℚ) :
    Except WithdrawalError Unit :=
  if account.balance < amount then
    Except.error WithdrawalError.InsufficientFunds
  else if account.daily_withdrawal_limit < amount then
    Except.error WithdrawalError.LimitExceeded
  else if account.balance - amount < account.minimum_balance then
    Except.error WithdrawalError.BelowMinimumBalance
  else
    Except.ok ()

/-- Validation errors raised by `TransferForm.clean` (`app/forms.py`,
lines 850-880).  The form performs no same-account check. -/
inductive TransferFormError where
  | NotAuthorized
  | InsufficientFunds
  | AccountDailyLimit
  | UserDailyLimit
deriving DecidableEq

/-- The method TransferForm.clean (`app/forms.py`, lines 850-880): user authorisation,
`can_debit`, account daily transfer limit, user daily transfer limit.  The
beneficiary account number is not compared with the source account. -/
def TransferForm_clean (user : CustomUser) (from_account : Account) (amount : ℚ) :
    Except TransferFormError Unit :=
  if user.can_make_transfers = false then
    Except.error TransferFormError.NotAuthorized
  else if from_account.can_debit amount = false then
    Except.error TransferFormError.InsufficientFunds
  else if from_account.daily_transfer_limit < amount then
    Except.error TransferFormError.AccountDailyLimit
  else if user.daily_transfer_limit < amount then
    Except.error TransferFormError.UserDailyLimit
  else
    Except.ok ()

/-- Outcome of a web (form) view: the form either validates and the view
redirects with a success message, or re-renders with errors. -/
inductive WebResult where
  | success
  | formError
deriving DecidableEq

/-- The account queryset of the web movement forms (`app/forms.py`:
`DepositForm.__init__`, `WithdrawalForm.__init__`, `TransferForm.__init__`):
only accounts with `is_active=True, is_closed=False` are selectable.  Frozen
accounts are not excluded, and `status` is not filtered on. -/
def form_account_selectable (a : Account) : Bool :=
  a.is_active && !a.is_closed

/-- The web deposit view (`app/views.py`, lines 756-817): on a valid form it
creates a PENDING `DEPOSIT` transaction with
`balance_after = balance_before` (comment in source: "Will be updated when
approved") and does not touch the balance.  The form requires
`amount >= 0.01`. -/
def web_deposit_view (st : BankState) (amount : ℚ) : WebResult × BankState :=
  if form_account_selectable st.account = false then (WebResult.formError, st)
  else if amount < 1/100 then (WebResult.formError, st)
  else
    let txn : Transaction :=
      { transaction_type := TxnType.DEPOSIT, amount := amount, fee := 0,
        status := TxnStatus.PENDING,
        balance_before := st.account.balance, balance_after := st.account.balance,
        beneficiary_account_number := "" }
    (WebResult.success, transaction_post_save txn { st with txns := st.txns ++ [txn] })

/-- The web withdrawal view (`app/views.py`, lines 821-878): a valid form
(queryset, `amount >= 0.01`, `WithdrawalForm.clean`) creates a PENDING
`WITHDRAWAL` transaction with `balance_after = balance_before`; the balance
is untouched. -/
def web_withdrawal_view (st : BankState) (amount : ℚ) : WebResult × BankState :=
  if form_account_selectable st.account = false then (WebResult.formError, st)
  else if amount < 1/100 then (WebResult.formError, st)
  else
    match WithdrawalForm_clean st.account amount with
    | Except.error _ => (WebResult.formError, st)
    | Except.ok _ =>
      let txn : Transaction :=
        { transaction_type := TxnType.WITHDRAWAL, amount := amount, fee := 0,
          status := TxnStatus.PENDING,
          balance_before := st.account.balance, balance_after := st.account.balance,
          beneficiary_account_number := "" }
      (WebResult.success, transaction_post_save txn { st with txns := st.txns ++ [txn] })

/-- The web transfer view (`app/views.py`, lines 886-1003): a valid form
creates a PENDING `TRANSFER` transaction carrying
`fee = min(amount * 0.005, 10.00)` and `balance_after = balance_before`;
the balance is untouched at submission time. -/
def web_transfer_view (st : BankState) (user : CustomUser)
    (beneficiary_account_number : String) (amount : ℚ) : WebResult × BankState :=
  if form_account_selectable st.account = false then (WebResult.formError, st)
  else if amount < 1/100 then (WebResult.formError, st)
  else
    match TransferForm_clean user st.account amount with
    | Except.error _ => (WebResult.formError, st)
    | Except.ok _ =>
      let fee := min (amount * (5/1000)) 10
      let txn : Transaction :=
        { transaction_type := TxnType.TRANSFER, amount := amount, fee := fee,
          status := TxnStatus.PENDING,
          balance_before := st.account.balance, balance_after := st.account.balance,
          beneficiary_account_number := beneficiary_account_number }
      (WebResult.success, transaction_post_save txn { st with txns := st.txns ++ [txn] })

/-- The DepositSerializer (`app/serializers.py`, lines 178-191): the amount
field has `min_value=0.01` and `validate_amount` rejects values above
1,000,000. -/
def DepositSerializer_is_valid (amount : ℚ) : Prop :=
  1/100 ≤ amount ∧ amount ≤ 1000000

instance (amount : ℚ) : Decidable (DepositSerializer_is_valid amount) := by
  unfold DepositSerializer_is_valid; infer_instance

/-- The WithdrawalSerializer (`app/serializers.py`, lines 194-204): the amount
field has `min_value=0.01`. -/
def WithdrawalSerializer_is_valid (amount : ℚ) : Prop :=
  1/100 ≤ amount

instance (amount : ℚ) : Decidable (WithdrawalSerializer_is_valid amount) := by
  unfold WithdrawalSerializer_is_valid; infer_instance

/-- The request body of the API transfer endpoint
(`app/serializers.py` TransferSerializer). -/
structure TransferData where
  from_account_number : String
  beneficiary_account_number : String
  amount : ℚ
  save_beneficiary : Bool
  beneficiary_nickname : String
deriving DecidableEq

/-- Errors raised by `TransferSerializer.validate`. -/
inductive TransferValidationError where
  | SameAccountTransfer
  | InvalidAmount
  | NicknameRequired
deriving DecidableEq

/-- The method TransferSerializer.validate (`app/serializers.py`, lines 218-236):
same-account check first, then the amount sign check, then the nickname
requirement when saving a beneficiary. -/
def TransferSerializer_validate (d : TransferData) :
    Except TransferValidationError Unit :=
  if d.from_account_number = d.beneficiary_account_number then
    Except.error TransferValidationError.SameAccountTransfer
  else if d.amount ≤ 0 then
    Except.error TransferValidationError.InvalidAmount
  else if d.save_beneficiary = true ∧ d.beneficiary_nickname = "" then
    Except.error TransferValidationError.NicknameRequired
  else
    Except.ok ()

/-- The check TransferSerializer.is_valid: field validation (`amount >= 0.01`)
followed by `validate`. -/
def TransferSerializer_is_valid (d : TransferData) : Prop :=
  1/100 ≤ d.amount ∧ (TransferSerializer_validate d).isOk = true

instance (d : TransferData) : Decidable (TransferSerializer_is_valid d) := by
  unfold TransferSerializer_is_valid; infer_instance

/-- Reasons for an HTTP 400 response from the API movement views. -/
inductive ApiReason where
  | serializerInvalid
  | accountNotOperable
deriving DecidableEq

/-- Responses of the API movement views (`app/api_views.py`).  `created` is
HTTP 201; `badRequest` is 400; `notFound` is 404; `forbidden` is 403;
`serverError` is the HTTP 500 produced by an uncaught Python exception (the
argument names the missing attribute of the `AttributeError`). -/
inductive ApiResult where
  | created
  | badRequest : ApiReason → ApiResult
  | notFound
  | forbidden
  | serverError : String → ApiResult
deriving DecidableEq

/-- A response that reports a client-side rejection (4xx). -/
def ApiResult.isRejection : ApiResult → Bool
  | ApiResult.created => false
  | ApiResult.badRequest _ => true
  | ApiResult.notFound => true
  | ApiResult.forbidden => true
  | ApiResult.serverError _ => false

/-- The API deposit view (`app/api_views.py`, lines 255-329), a
`@transaction.atomic` function.  Order of the source: serializer validation
(400), account lookup by number and owner (404), flag check (400).  It then
creates a COMPLETED `DEPOSIT` transaction (whose `post_save` signal writes
the balance) and assigns the balance — but the next statement,
`account.available_balance = balance_after - account.pending_balance`
(line 320), reads `account.pending_balance`, an attribute the `Account`
model does not define.  The `AttributeError` propagates, `transaction.atomic`
rolls every write back, and the request ends as an HTTP 500 with the
persistent state unchanged. -/
def api_deposit_view (st : BankState) (_user : CustomUser)
    (account_number : String) (amount : ℚ) : ApiResult × BankState :=
  if ¬ DepositSerializer_is_valid amount then
    (ApiResult.badRequest ApiReason.serializerInvalid, st)
  else if st.account.account_number ≠ account_number then
    (ApiResult.notFound, st)
  else if st.account.is_active = false ∨ st.account.is_frozen = true ∨
      st.account.is_closed = true then
    (ApiResult.badRequest ApiReason.accountNotOperable, st)
  else
    (ApiResult.serverError "pending_balance", st)

/-- The API withdrawal view (`app/api_views.py`, lines 332-442), a
`@transaction.atomic` function.  Order of the source: serializer validation
(400), account lookup (404), flag check (400), `user.can_make_transfers`
(403).  The funds check on line 383,
`if account.available_balance < amount:`, reads the nonexistent
`Account.available_balance` attribute, so every request that reaches it ends
as an HTTP 500 (`AttributeError`) with no write performed. -/
def api_withdrawal_view (st : BankState) (user : CustomUser)
    (account_number : String) (amount : ℚ) : ApiResult × BankState :=
  if ¬ WithdrawalSerializer_is_valid amount then
    (ApiResult.badRequest ApiReason.serializerInvalid, st)
  else if st.account.account_number ≠ account_number then
    (ApiResult.notFound, st)
  else if st.account.is_active = false ∨ st.account.is_frozen = true ∨
      st.account.is_closed = true then
    (ApiResult.badRequest ApiReason.accountNotOperable, st)
  else if user.can_make_transfers = false then
    (ApiResult.forbidden, st)
  else
    (ApiResult.serverError "available_balance", st)

/-- The API transfer view (`app/api_views.py`, lines 445-576), a
`@transaction.atomic` function.  Order of the source: serializer validation
(400), `user.can_make_transfers` (403), source-account lookup (404), flag
check (400).  The funds check on line 501 reads the nonexistent
`Account.available_balance` attribute, so every request that reaches it ends
as an HTTP 500 (`AttributeError`) with no write performed. -/
def api_transfer_view (st : BankState) (user : CustomUser) (d : TransferData) :
    ApiResult × BankState :=
  if ¬ TransferSerializer_is_valid d then
    (ApiResult.badRequest ApiReason.serializerInvalid, st)
  else if user.can_make_transfers = false then
    (ApiResult.forbidden, st)
  else if st.account.account_number ≠ d.from_account_number then
    (ApiResult.notFound, st)
  else if st.account.is_active = false ∨ st.account.is_frozen = true ∨
      st.account.is_closed = true then
    (ApiResult.badRequest ApiReason.accountNotOperable, st)
  else
    (ApiResult.serverError "available_balance", st)

/-- Round a rational to the nearest integer, ties to even
(`decimal.ROUND_HALF_EVEN`). -/
def rndHalfEven (x : ℚ) : ℤ :=
  if x - ⌊x⌋ < 1/2 then ⌊x⌋
  else if 1/2 < x - ⌊x⌋ then ⌊x⌋ + 1
  else if 2 ∣ ⌊x⌋ then ⌊x⌋ else ⌊x⌋ + 1

/-- Rounding applied by Python's default `decimal` context to every
arithmetic result: round half-even to 28 significant digits (the scale is
chosen from the base-10 magnitude of the value).  Values already
representable in at most 28 significant digits are returned unchanged. -/
def decimalRound (q : ℚ) : ℚ :=
  if q = 0 then 0
  else
    (rndHalfEven (q * (10 : ℚ) ^ (27 - Int.log 10 |q|)) : ℚ) /
      (10 : ℚ) ^ (27 - Int.log 10 |q|)

/-- Addition of Python `Decimal` values under the default context. -/
def pyAdd (x y : ℚ) : ℚ := decimalRound (x + y)

/-- Multiplication of Python `Decimal` values under the default context. -/
def pyMul (x y : ℚ) : ℚ := decimalRound (x * y)

/-- Division of Python `Decimal` values under the default context
(correctly rounded to 28 significant digits). -/
def pyDiv (x y : ℚ) : ℚ := decimalRound (x / y)

/-- Errors raised by `LoanApplicationSerializer.validate`
(`app/serializers.py`, lines 437-483). -/
inductive LoanValidationError where
  | NotEligible
  | AccountNotFound
  | AmountTooSmall
  | AmountTooLarge
  | TermTooShort
  | TermTooLong
deriving DecidableEq

/-- The method LoanApplicationSerializer.validate (`app/serializers.py`, lines
437-483): eligibility, account lookup, principal in [1000, 1000000], term in
[6, 360] months. -/
def LoanApplicationSerializer_validate (can_apply_for_loans : Bool)
    (account_found : Bool) (principal_amount : ℚ) (loan_term_months : ℤ) :
    Except LoanValidationError Unit :=
  if can_apply_for_loans = false then Except.error LoanValidationError.NotEligible
  else if account_found = false then Except.error LoanValidationError.AccountNotFound
  else if principal_amount < 1000 then Except.error LoanValidationError.AmountTooSmall
  else if 1000000 < principal_amount then Except.error LoanValidationError.AmountTooLarge
  else if loan_term_months < 6 then Except.error LoanValidationError.TermTooShort
  else if 360 < loan_term_months then Except.error LoanValidationError.TermTooLong
  else Except.ok ()

/-- The calculated fields of the `Loan` model (`app/models.py`) set by
`LoanApplicationSerializer.create`. -/
structure Loan where
  principal_amount : ℚ
  interest_rate : ℚ
  loan_term_months : ℤ
  total_interest : ℚ
  total_amount : ℚ
  monthly_payment : ℚ
  balance_remaining : ℚ
deriving DecidableEq

/-- The method LoanApplicationSerializer.create (`app/serializers.py`, lines 485-508).
The serializer exposes no `interest_rate` field, so
`validated_data.get('interest_rate', Decimal('10.0'))` always yields the
default 10.0.  The simple-interest numbers are computed with Python
`Decimal` arithmetic under the default context:
`total_interest = (principal * rate * months) / (Decimal('100') * Decimal('12'))`,
`total_amount = principal + total_interest`,
`monthly_payment = total_amount / months`,
`balance_remaining = total_amount`. -/
def LoanApplicationSerializer_create (principal_amount : ℚ)
    (loan_term_months : ℤ) : Loan :=
  let rate : ℚ := 10
  let total_interest :=
    pyDiv (pyMul (pyMul principal_amount rate) (loan_term_months : ℚ))
      (pyMul 100 12)
  let total_amount := pyAdd principal_amount total_interest
  let monthly_payment := pyDiv total_amount (loan_term_months : ℚ)
  { principal_amount := principal_amount
    interest_rate := rate
    loan_term_months := loan_term_months
    total_interest := total_interest
    total_amount := total_amount
    monthly_payment := monthly_payment
    balance_remaining := total_amount }

/-! Concrete fixtures used by the scenario theorems: a fresh
`TransactionLimit` row (all counters at their model defaults of zero), an
authorised user with the default user-level transfer limit, and accounts
with the model's default limits. -/

/-- A fresh per-user-per-day counter row: every field defaults to 0. -/
def limits0 : TransactionLimit :=
  { daily_transfer_count := 0, daily_transfer_amount := 0,
    daily_withdrawal_count := 0, daily_withdrawal_amount := 0,
    monthly_transfer_amount := 0, monthly_withdrawal_amount := 0 }

/-- An authorised user with the default `daily_transfer_limit` of 10000. -/
def user0 : CustomUser := { can_make_transfers := true, daily_transfer_limit := 10000 }

/-- An operable ACTIVE account with the model's default limits
(`daily_withdrawal_limit` 5000, `daily_transfer_limit` 10000,
`minimum_balance` 0) and the given balance. -/
def activeAccount (balance : ℚ) : Account :=
  { account_number := "1234567890", balance := balance,
    status := AccountStatus.ACTIVE,
    is_active := true, is_frozen := false, is_closed := false,
    daily_withdrawal_limit := 5000, daily_transfer_limit := 10000,
    minimum_balance := 0, overdraft_limit := 0 }

/-- Scenario state for C1: active account holding 500.00, empty log. -/
def stC1 : BankState := { account := activeAccount 500, limits := limits0, txns := [] }

/-- Scenario state for C1 after a web deposit of 250.00 is submitted and an
administrator marks the created transaction COMPLETED. -/
def stC1_done : BankState := admin_mark_completed (web_deposit_view stC1 250).2 0

/-- Scenario transaction for C2: a COMPLETED 250.00 deposit with consistent
balance snapshots (500.00 before, 750.00 after). -/
def tC2 : Transaction :=
  { transaction_type := TxnType.DEPOSIT, amount := 250, fee := 0,
    status := TxnStatus.COMPLETED, balance_before := 500, balance_after := 750,
    beneficiary_account_number := "" }

/-- Scenario state for C4: active account holding 100.00. -/
def stC4 : BankState := { account := activeAccount 100, limits := limits0, txns := [] }

/-- Scenario state for C4 after a web transfer of the full 100.00 balance
(fee 0.50) is submitted and an administrator completes it. -/
def stC4_done : BankState :=
  admin_mark_completed (web_transfer_view stC4 user0 "9999999999" 100).2 0

/-- Scenario A account for C5: balance 1000.00,
`daily_withdrawal_limit` 500.00. -/
def acctC5 : Account := { activeAccount 1000 with daily_withdrawal_limit := 500 }

/-- Scenario B account for C5: balance 1000.00, `minimum_balance` 100.00. -/
def acctC5min : Account := { activeAccount 1000 with minimum_balance := 100 }

/-- Scenario state for C5: scenario A account, fresh counters. -/
def stC5 : BankState := { account := acctC5, limits := limits0, txns := [] }

/-- Scenario state for C6: active account holding 500.00. -/
def stC6 : BankState := { account := activeAccount 500, limits := limits0, txns := [] }

/-- Scenario state for C7: active account holding 1000.00. -/
def stC7 : BankState := { account := activeAccount 1000, limits := limits0, txns := [] }

/-- Scenario request for C7: an API transfer whose beneficiary account
number equals the source account number. -/
def dC7 : TransferData :=
  { from_account_number := "1234567890", beneficiary_account_number := "1234567890",
    amount := 300, save_beneficiary := false, beneficiary_nickname := "" }

/-- Scenario account for C8: status SUSPENDED while the boolean flags still
read operable (`is_active` true, not frozen, not closed). -/
def acctC8 : Account := { activeAccount 1000 with status := AccountStatus.SUSPENDED }

/-- Scenario state for C8's counterexample. -/
def stC8 : BankState := { account := acctC8, limits := limits0, txns := [] }

/-- Frozen variant of the scenario account, used to witness the amended C8
theorem. -/
def stC8frozen : BankState :=
  { account := { activeAccount 1000 with is_frozen := true }, limits := limits0, txns := [] }

/-- Scenario request for C8's witness: a well-formed API transfer to a
different account. -/
def dC8 : TransferData :=
  { from_account_number := "1234567890", beneficiary_account_number := "9999999999",
    amount := 250, save_beneficiary := false, beneficiary_nickname := "" }

/-- Scenario state for C9: active account holding 1000.00, fresh counters. -/
def stC9 : BankState := { account := activeAccount 1000, limits := limits0, txns := [] }

/-- Scenario state for C9 after a web transfer of 400.00 is submitted and
completed by an administrator. -/
def stC9_done : BankState :=
  admin_mark_completed (web_transfer_view stC9 user0 "9999999999" 400).2 0

/-! Helper lemmas: pointwise evaluations of `update_account_balance` by
transaction type, and evaluation rules for `decimalRound`. -/

/-- Saving a PENDING transaction leaves the account untouched. -/
theorem update_account_balance_pending (t : Transaction) (a : Account)
    (h1 : t.status = TxnStatus.PENDING) : update_account_balance t a = a := by
  unfold update_account_balance
  rw [h1, if_neg (by decide)]

/-- Saving a COMPLETED deposit credits `amount`. -/
theorem update_account_balance_deposit (t : Transaction) (a : Account)
    (h1 : t.status = TxnStatus.COMPLETED) (h2 : t.transaction_type = TxnType.DEPOSIT) :
    update_account_balance t a = { a with balance := a.balance + t.amount } := by
  unfold update_account_balance
  rw [h1, h2, if_pos rfl, if_pos (by decide)]

/-- Saving a COMPLETED withdrawal debits `amount + fee`. -/
theorem update_account_balance_withdrawal (t : Transaction) (a : Account)
    (h1 : t.status = TxnStatus.COMPLETED) (h2 : t.transaction_type = TxnType.WITHDRAWAL) :
    update_account_balance t a = { a with balance := a.balance - (t.amount + t.fee) } := by
  unfold update_account_balance
  rw [h1, h2, if_pos rfl, if_neg (by decide), if_pos (by decide)]

/-- Saving a COMPLETED transfer debits `amount + fee`. -/
theorem update_account_balance_transfer (t : Transaction) (a : Account)
    (h1 : t.status = TxnStatus.COMPLETED) (h2 : t.transaction_type = TxnType.TRANSFER) :
    update_account_balance t a = { a with balance := a.balance - (t.amount + t.fee) } := by
  unfold update_account_balance
  rw [h1, h2, if_pos rfl, if_neg (by decide), if_pos (by decide)]

/-- Characterisation of `Int.log 10` by a power bracket. -/
theorem log10_eq {q : ℚ} {e : ℤ} (hq : 0 < q) (h1 : (10 : ℚ) ^ e ≤ q)
    (h2 : q < (10 : ℚ) ^ (e + 1)) : Int.log 10 q = e := by
  have hb : 1 < (10 : ℕ) := by norm_num
  have hle : e ≤ Int.log 10 q := by
    refine (Int.zpow_le_iff_le_log hb hq).mp ?_
    exact_mod_cast h1
  have hlt : Int.log 10 q < e + 1 := by
    refine (Int.lt_zpow_iff_log_lt hb hq).mp ?_
    exact_mod_cast h2
  omega

/-- The integer rounding `rndHalfEven` returns `n` when the fractional part of `x` above `n` is
below one half. -/
theorem rndHalfEven_eq_of {x : ℚ} {n : ℤ} (h1 : (n : ℚ) ≤ x)
    (h2 : x - n < 1/2) : rndHalfEven x = n := by
  have hf : ⌊x⌋ = n := by
    rw [Int.floor_eq_iff]
    constructor
    · exact h1
    · linarith
  unfold rndHalfEven
  rw [hf, if_pos h2]

/-- The integer rounding `rndHalfEven` fixes integers. -/
theorem rndHalfEven_intCast (m : ℤ) : rndHalfEven (m : ℚ) = m := by
  refine rndHalfEven_eq_of le_rfl ?_
  norm_num

/-- Evaluation of `decimalRound` in the round-down case: when
`10 ^ e ≤ q < 10 ^ (e + 1)` and the 28-digit scaling of `q` lies within
one half above the integer `n`, the rounded value is `n / 10 ^ (27 - e)`. -/
theorem decimalRound_eq_down {q : ℚ} {e n : ℤ} (hq : 0 < q)
    (h1 : (10 : ℚ) ^ e ≤ q) (h2 : q < (10 : ℚ) ^ (e + 1))
    (hn1 : (n : ℚ) ≤ q * (10 : ℚ) ^ (27 - e))
    (hn2 : q * (10 : ℚ) ^ (27 - e) - n < 1/2) :
    decimalRound q = (n : ℚ) / (10 : ℚ) ^ (27 - e) := by
  unfold decimalRound
  rw [if_neg hq.ne', abs_of_pos hq, log10_eq hq h1 h2,
    rndHalfEven_eq_of hn1 hn2]

/-- A value whose 28-digit scaling is an integer is returned unchanged by
`decimalRound`. -/
theorem decimalRound_eq_self {q : ℚ} {e m : ℤ} (hq : 0 < q)
    (h1 : (10 : ℚ) ^ e ≤ q) (h2 : q < (10 : ℚ) ^ (e + 1))
    (hm : q * (10 : ℚ) ^ (27 - e) = (m : ℚ)) :
    decimalRound q = q := by
  unfold decimalRound
  rw [if_neg hq.ne', abs_of_pos hq, log10_eq hq h1 h2, hm, rndHalfEven_intCast]
  rw [← hm]
  have hp : (10 : ℚ) ^ (27 - e) ≠ 0 := zpow_ne_zero _ (by norm_num)
  field_simp

/-- Evaluation helper: the Decimal product `Decimal('100') * Decimal('12')`
of `LoanApplicationSerializer.create` is exact. -/
theorem pyMul_100_12 : pyMul 100 12 = 1200 := by
  unfold pyMul
  rw [show (100 : ℚ) * 12 = 1200 by norm_num]
  exact decimalRound_eq_self (e := 3) (m := 12 * 10 ^ 26) (by norm_num) (by norm_num)
    (by norm_num) (by norm_num)

/-- C1: the claim says a movement whose transaction reaches COMPLETED has
`balance_after = balance_before + amount` (for a deposit) and the stored
account balance equal to that `balance_after`.  On the web path a deposit of
250.00 against a balance of 500.00 is created PENDING with
`balance_after = balance_before = 500.00`; when an administrator marks it
COMPLETED the signal credits the account (balance 750.00) but nothing
updates the row's `balance_after`, so the COMPLETED row keeps
`balance_after = 500.00 ≠ balance_before + amount` and the stored balance
750.00 differs from the row's `balance_after`. -/
theorem c1_completed_deposit_pairing_broken :
    (web_deposit_view stC1 250).1 = WebResult.success ∧
    stC1_done.txns.map Transaction.status = [TxnStatus.COMPLETED] ∧
    stC1_done.txns.map Transaction.balance_before = [500] ∧
    stC1_done.txns.map Transaction.balance_after = [500] ∧
    stC1_done.account.balance = 750 ∧
    stC1_done.txns.map Transaction.balance_after ≠
      stC1_done.txns.map (fun t => t.balance_before + t.amount) ∧
    stC1_done.txns.map Transaction.balance_after ≠ [stC1_done.account.balance] := by
  refine ⟨?_, ?_, ?_, ?_, ?_, ?_, ?_⟩ <;>
    norm_num [stC1_done, stC1, web_deposit_view, form_account_selectable, activeAccount,
      limits0, admin_mark_completed, transaction_post_save,
      update_account_balance_pending, update_account_balance_deposit]

/-- C2: the claim says re-saving an already-COMPLETED transaction with no
field changes leaves the account balance unchanged.  The `post_save`
handler `update_account_balance` has no already-processed guard: the first
save of a COMPLETED 250.00 deposit takes the balance from 500.00 to its
`balance_after` of 750.00, and saving the same unchanged row again applies
the credit a second time (1000.00 ≠ 750.00). -/
theorem c2_resave_applies_balance_again :
    (update_account_balance tC2 (activeAccount 500)).balance = tC2.balance_after ∧
    (update_account_balance tC2 (update_account_balance tC2 (activeAccount 500))).balance ≠
      tC2.balance_after := by
  refine ⟨?_, ?_⟩ <;>
    norm_num [tC2, activeAccount, update_account_balance_deposit]

/-- C3: every movement request that is rejected by validation — any 4xx
response of the API deposit/withdrawal/transfer views, and any form
validation failure of the web deposit/withdrawal/transfer views — leaves
the whole persistent state (account balance, per-day counters, transaction
log) exactly as it was. -/
theorem c3_rejected_movements_preserve_state :
    (∀ st u n a, (api_deposit_view st u n a).1.isRejection = true →
      (api_deposit_view st u n a).2 = st) ∧
    (∀ st u n a, (api_withdrawal_view st u n a).1.isRejection = true →
      (api_withdrawal_view st u n a).2 = st) ∧
    (∀ st u d, (api_transfer_view st u d).1.isRejection = true →
      (api_transfer_view st u d).2 = st) ∧
    (∀ st a, (web_deposit_view st a).1 = WebResult.formError →
      (web_deposit_view st a).2 = st) ∧
    (∀ st a, (web_withdrawal_view st a).1 = WebResult.formError →
      (web_withdrawal_view st a).2 = st) ∧
    (∀ st u b a, (web_transfer_view st u b a).1 = WebResult.formError →
      (web_transfer_view st u b a).2 = st) := by
  refine ⟨?_, ?_, ?_, ?_, ?_, ?_⟩
  · intro st u n a _
    unfold api_deposit_view
    split_ifs <;> rfl
  · intro st u n a _
    unfold api_withdrawal_view
    split_ifs <;> rfl
  · intro st u d _
    unfold api_transfer_view
    split_ifs <;> rfl
  · intro st a h
    unfold web_deposit_view at h ⊢
    split_ifs at h ⊢ <;> rfl
  · intro st a h
    unfold web_withdrawal_view at h ⊢
    split_ifs at h ⊢ <;>
      first
        | rfl
        | (rcases hE : WithdrawalForm_clean st.account a with e | v <;> simp_all)
  · intro st u b a h
    unfold web_transfer_view at h ⊢
    split_ifs at h ⊢ <;>
      first
        | rfl
        | (rcases hE : TransferForm_clean u st.account a with e | v <;> simp_all)

/-- C3 witness: a rejected API withdrawal of 0.00 (below the serializer's
0.01 minimum) leaves the state of scenario A untouched. -/
theorem c3_witness : (api_withdrawal_view stC5 user0 "1234567890" 0).2 = stC5 :=
  c3_rejected_movements_preserve_state.2.1 stC5 user0 "1234567890" 0 (by
    norm_num [api_withdrawal_view, WithdrawalSerializer_is_valid, ApiResult.isRejection])

/-- C4: the claim says the balance never becomes negative.  A web transfer
of the full 100.00 balance passes `TransferForm.clean`
(`can_debit` checks `balance >= amount` only) and books `fee = 0.50`; when
an administrator completes the transaction the signal debits
`amount + fee`, leaving the stored balance at -0.50. -/
theorem c4_completed_transfer_drives_balance_negative :
    (web_transfer_view stC4 user0 "9999999999" 100).1 = WebResult.success ∧
    stC4_done.account.balance < 0 := by
  refine ⟨?_, ?_⟩ <;>
    norm_num [stC4_done, stC4, web_transfer_view, form_account_selectable, activeAccount,
      limits0, TransferForm_clean, Account.can_debit, user0, admin_mark_completed,
      transaction_post_save, update_account_balance_pending, update_account_balance_transfer]

/-- C5: the claim states the withdrawal validation rules and cites both the
form and the API view.  `WithdrawalForm.clean` behaves exactly as claimed —
600.00 against balance 1000.00 with a 500.00 daily limit is rejected with
LimitExceeded, 950.00 against balance 1000.00 with minimum balance 100.00
is rejected with BelowMinimumBalance, 1200.00 against balance 1000.00 is
rejected with InsufficientFunds — but the API withdrawal view reads the
nonexistent `Account.available_balance` attribute before any of those
checks, so the same scenario-A request dies with an `AttributeError`
(HTTP 500) instead of the claimed LimitExceeded rejection. -/
theorem c5_withdrawal_policy_and_api_crash :
    WithdrawalForm_clean acctC5 600 = Except.error WithdrawalError.LimitExceeded ∧
    WithdrawalForm_clean acctC5min 950 = Except.error WithdrawalError.BelowMinimumBalance ∧
    WithdrawalForm_clean acctC5 1200 = Except.error WithdrawalError.InsufficientFunds ∧
    api_withdrawal_view stC5 user0 "1234567890" 600 =
      (ApiResult.serverError "available_balance", stC5) := by
  refine ⟨?_, ?_, ?_, ?_⟩ <;>
    norm_num [WithdrawalForm_clean, acctC5, acctC5min, activeAccount, stC5, limits0,
      api_withdrawal_view, WithdrawalSerializer_is_valid, user0]

/-- C6: the claim says a valid deposit returns HTTP 201 with a COMPLETED
transaction and the credited balance.  The API deposit view crashes with an
`AttributeError` on the nonexistent `Account.pending_balance` (HTTP 500,
atomic rollback, state unchanged), and the web deposit view books the
deposit as a PENDING transaction that leaves the balance at 500.00. -/
theorem c6_deposit_endpoints_diverge :
    api_deposit_view stC6 user0 "1234567890" 250 = (ApiResult.serverError "pending_balance", stC6) ∧
    (web_deposit_view stC6 250).1 = WebResult.success ∧
    (web_deposit_view stC6 250).2.account.balance = 500 ∧
    (web_deposit_view stC6 250).2.txns.map Transaction.status = [TxnStatus.PENDING] := by
  refine ⟨?_, ?_, ?_, ?_⟩ <;>
    norm_num [api_deposit_view, DepositSerializer_is_valid, stC6, activeAccount, limits0,
      web_deposit_view, form_account_selectable, transaction_post_save,
      update_account_balance_pending, user0]

/-- C7 counterexample: on the web form path a transfer of 300.00 whose
beneficiary account number equals the source account's own number passes
`TransferForm.clean` and is accepted (a transaction row targeting the
account's own number is created), contradicting the claim that both paths
reject SameAccountTransfer. -/
theorem c7_web_form_accepts_same_account_transfer :
    (web_transfer_view stC7 user0 stC7.account.account_number 300).1 = WebResult.success ∧
    (web_transfer_view stC7 user0 stC7.account.account_number 300).2.txns.map
      (fun t => t.beneficiary_account_number) = [stC7.account.account_number] := by
  refine ⟨?_, ?_⟩ <;>
    norm_num [web_transfer_view, form_account_selectable, stC7, activeAccount, limits0,
      TransferForm_clean, Account.can_debit, user0, transaction_post_save,
      update_account_balance_pending]

/-- C7 (amended): on the API path every transfer whose beneficiary account
number equals the source account number is rejected by
`TransferSerializer.validate` with SameAccountTransfer: the endpoint never
returns 201 and never changes the persistent state.  The web form path has
no such check. -/
theorem c7_api_rejects_same_account_transfer (st : BankState) (u : CustomUser)
    (d : TransferData) (h : d.from_account_number = d.beneficiary_account_number) :
    TransferSerializer_validate d = Except.error TransferValidationError.SameAccountTransfer ∧
    (api_transfer_view st u d).1 ≠ ApiResult.created ∧
    (api_transfer_view st u d).2 = st := by
  have hv : TransferSerializer_validate d =
      Except.error TransferValidationError.SameAccountTransfer := by
    unfold TransferSerializer_validate
    rw [if_pos h]
  have hnv : ¬ TransferSerializer_is_valid d := by
    intro hc
    unfold TransferSerializer_is_valid at hc
    rw [hv] at hc
    exact absurd hc.2 (by decide)
  refine ⟨hv, ?_, ?_⟩
  · unfold api_transfer_view
    rw [if_pos hnv]
    simp
  · unfold api_transfer_view
    rw [if_pos hnv]

/-- C7 witness: the amended theorem applied to a concrete 300.00 transfer
from account 1234567890 to itself. -/
theorem c7_witness :
    TransferSerializer_validate dC7 = Except.error TransferValidationError.SameAccountTransfer ∧
    (api_transfer_view stC7 user0 dC7).1 ≠ ApiResult.created ∧
    (api_transfer_view stC7 user0 dC7).2 = stC7 :=
  c7_api_rejects_same_account_transfer stC7 user0 dC7 rfl

/-- C8 counterexample: an account whose `status` column is SUSPENDED but
whose boolean flags read operable (`is_active` true, not frozen, not
closed) is not rejected: the web transfer form accepts a 300.00 transfer,
the API deposit view sails past its operability check (reaching the
`AttributeError` instead of returning AccountNotOperable), and
`Account.can_debit` answers true. -/
theorem c8_suspended_account_movements_accepted :
    acctC8.status = AccountStatus.SUSPENDED ∧
    (web_transfer_view stC8 user0 "9999999999" 300).1 = WebResult.success ∧
    (api_deposit_view stC8 user0 "1234567890" 250).1 = ApiResult.serverError "pending_balance" ∧
    Account.can_debit acctC8 300 = true := by
  refine ⟨rfl, ?_, ?_, ?_⟩ <;>
    norm_num [web_transfer_view, form_account_selectable, stC8, acctC8, activeAccount,
      limits0, TransferForm_clean, Account.can_debit, user0,
      api_deposit_view, DepositSerializer_is_valid]

/-- C8 (amended): operability of a movement is governed solely by the
boolean flags `is_active`/`is_frozen`/`is_closed`: whenever any flag is
inoperable, the three API movement views reject with AccountNotOperable
(HTTP 400) without touching the state and `can_debit` answers false — and
the `status` column is never consulted (`can_debit` is invariant under a
change of `status`). -/
theorem c8_operability_depends_only_on_flags (st : BankState) (u : CustomUser)
    (n : String) (a : ℚ) (d : TransferData) (s : AccountStatus)
    (hflags : st.account.is_active = false ∨ st.account.is_frozen = true ∨
      st.account.is_closed = true)
    (hn : st.account.account_number = n)
    (hdep : DepositSerializer_is_valid a)
    (hwd : WithdrawalSerializer_is_valid a)
    (htr : TransferSerializer_is_valid d)
    (hfrom : d.from_account_number = n)
    (hu : u.can_make_transfers = true) :
    api_deposit_view st u n a = (ApiResult.badRequest ApiReason.accountNotOperable, st) ∧
    api_withdrawal_view st u n a = (ApiResult.badRequest ApiReason.accountNotOperable, st) ∧
    api_transfer_view st u d = (ApiResult.badRequest ApiReason.accountNotOperable, st) ∧
    Account.can_debit st.account a = false ∧
    Account.can_debit { st.account with status := s } a = Account.can_debit st.account a := by
  refine ⟨?_, ?_, ?_, ?_, rfl⟩
  · unfold api_deposit_view
    rw [if_neg (not_not_intro hdep), if_neg (not_not_intro hn), if_pos hflags]
  · unfold api_withdrawal_view
    rw [if_neg (not_not_intro hwd), if_neg (not_not_intro hn), if_pos hflags]
  · unfold api_transfer_view
    rw [if_neg (not_not_intro htr), if_neg (by simp [hu]),
      if_neg (not_not_intro (hn.trans hfrom.symm)), if_pos hflags]
  · unfold Account.can_debit
    rw [if_pos hflags]

/-- C8 witness: the amended theorem applied to a frozen account and
well-formed 250.00 movement requests. -/
theorem c8_witness :
    api_deposit_view stC8frozen user0 "1234567890" 250 =
      (ApiResult.badRequest ApiReason.accountNotOperable, stC8frozen) ∧
    api_withdrawal_view stC8frozen user0 "1234567890" 250 =
      (ApiResult.badRequest ApiReason.accountNotOperable, stC8frozen) ∧
    api_transfer_view stC8frozen user0 dC8 =
      (ApiResult.badRequest ApiReason.accountNotOperable, stC8frozen) ∧
    Account.can_debit stC8frozen.account 250 = false ∧
    Account.can_debit { stC8frozen.account with status := AccountStatus.ACTIVE } 250 =
      Account.can_debit stC8frozen.account 250 :=
  c8_operability_depends_only_on_flags stC8frozen user0 "1234567890" 250 dC8
    AccountStatus.ACTIVE (Or.inr (Or.inl rfl)) rfl
    (by norm_num [DepositSerializer_is_valid])
    (by norm_num [WithdrawalSerializer_is_valid])
    (by refine ⟨by norm_num [dC8], ?_⟩
        rw [show TransferSerializer_validate dC8 = Except.ok () from by
          unfold TransferSerializer_validate
          rw [if_neg (by decide), if_neg (by norm_num [dC8]), if_neg (by simp [dC8])]]
        rfl)
    rfl rfl

/-- C9 counterexample: a 400.00 web transfer is accepted and, once
completed by an administrator, changes the account balance — yet the
per-user-per-day `TransactionLimit` counters are bit-identical before and
after, contradicting the claim that accepted movements increment them. -/
theorem c9_accepted_transfer_leaves_counters_unchanged :
    (web_transfer_view stC9 user0 "9999999999" 400).1 = WebResult.success ∧
    stC9_done.account.balance ≠ stC9.account.balance ∧
    stC9_done.limits = stC9.limits := by
  refine ⟨?_, ?_, ?_⟩ <;>
    norm_num [stC9_done, stC9, web_transfer_view, form_account_selectable, activeAccount,
      limits0, TransferForm_clean, Account.can_debit, user0, admin_mark_completed,
      transaction_post_save, update_account_balance_pending, update_account_balance_transfer]

/-- C9 (amended): no movement path — web or API, submission or
administrative completion, accepted or rejected — ever reads or writes the
`TransactionLimit` counter row: its value after any of these operations
equals its value before. -/
theorem c9_limit_counters_never_written (st : BankState) (u : CustomUser)
    (t : Transaction) (n b : String) (a : ℚ) (d : TransferData) (i : ℕ) :
    (web_deposit_view st a).2.limits = st.limits ∧
    (web_withdrawal_view st a).2.limits = st.limits ∧
    (web_transfer_view st u b a).2.limits = st.limits ∧
    (api_deposit_view st u n a).2.limits = st.limits ∧
    (api_withdrawal_view st u n a).2.limits = st.limits ∧
    (api_transfer_view st u d).2.limits = st.limits ∧
    (transaction_post_save t st).limits = st.limits ∧
    (admin_mark_completed st i).limits = st.limits := by
  refine ⟨?_, ?_, ?_, ?_, ?_, ?_, rfl, ?_⟩
  · unfold web_deposit_view
    split_ifs <;> rfl
  · unfold web_withdrawal_view
    split_ifs <;>
      first
        | rfl
        | (rcases hE : WithdrawalForm_clean st.account a with e | v <;> rfl)
  · unfold web_transfer_view
    split_ifs <;>
      first
        | rfl
        | (rcases hE : TransferForm_clean u st.account a with e | v <;> rfl)
  · unfold api_deposit_view
    split_ifs <;> rfl
  · unfold api_withdrawal_view
    split_ifs <;> rfl
  · unfold api_transfer_view
    split_ifs <;> rfl
  · unfold admin_mark_completed
    rcases hE : st.txns[i]? with - | t2 <;> rfl

/-- C10 counterexample: for a loan of 1000.00 over 7 months the code's
`total_interest` is the Python-decimal quotient rounded to 28 significant
digits, which differs from the exact value (P * r * m) / 1200 = 175/3. -/
theorem c10_total_interest_not_exact :
    (LoanApplicationSerializer_create 1000 7).total_interest ≠ 1000 * 10 * 7 / 1200 := by
  have e1 : pyMul 1000 10 = 10000 := by
    unfold pyMul
    rw [show (1000 : ℚ) * 10 = 10000 by norm_num]
    exact decimalRound_eq_self (e := 4) (m := 10 ^ 27) (by norm_num) (by norm_num)
      (by norm_num) (by norm_num)
  have e2 : pyMul 10000 7 = 70000 := by
    unfold pyMul
    rw [show (10000 : ℚ) * 7 = 70000 by norm_num]
    exact decimalRound_eq_self (e := 4) (m := 7 * 10 ^ 27) (by norm_num) (by norm_num)
      (by norm_num) (by norm_num)
  have e4 : pyDiv 70000 1200 = 5833333333333333333333333333 / 10 ^ 26 := by
    unfold pyDiv
    rw [show (70000 : ℚ) / 1200 = 175 / 3 by norm_num]
    rw [decimalRound_eq_down (e := 1) (n := 5833333333333333333333333333) (by norm_num)
      (by norm_num) (by norm_num) (by norm_num) (by norm_num)]
    norm_num
  simp only [LoanApplicationSerializer_create]
  rw [show ((7 : ℤ) : ℚ) = 7 by norm_num]
  rw [e1, e2, pyMul_100_12, e4]
  norm_num

/-- C10 (amended): for every loan application accepted by
`LoanApplicationSerializer.validate`, the principal lies in
[1000, 1000000] and the term in [6, 360] months, the rate is the default
10.0, and the created loan satisfies the simple-interest formulas with each
Decimal operation rounded to 28 significant digits (Python's default
decimal context): `total_interest = ((P * r) * m) / 1200`,
`total_amount = P + total_interest`,
`monthly_payment = total_amount / m`, each via `decimalRound`, and
`balance_remaining = total_amount` exactly. -/
theorem c10_loan_arithmetic_rounded (cafl af : Bool) (P : ℚ) (m : ℤ)
    (h : LoanApplicationSerializer_validate cafl af P m = Except.ok ()) :
    (1000 ≤ P ∧ P ≤ 1000000 ∧ 6 ≤ m ∧ m ≤ 360) ∧
    (LoanApplicationSerializer_create P m).interest_rate = 10 ∧
    (LoanApplicationSerializer_create P m).total_interest =
      decimalRound (decimalRound (decimalRound (P * 10) * (m : ℚ)) / 1200) ∧
    (LoanApplicationSerializer_create P m).total_amount =
      decimalRound (P + (LoanApplicationSerializer_create P m).total_interest) ∧
    (LoanApplicationSerializer_create P m).monthly_payment =
      decimalRound ((LoanApplicationSerializer_create P m).total_amount / (m : ℚ)) ∧
    (LoanApplicationSerializer_create P m).balance_remaining =
      (LoanApplicationSerializer_create P m).total_amount := by
  unfold LoanApplicationSerializer_validate at h
  split_ifs at h with h1 h2 h3 h4 h5 h6
  refine ⟨⟨by linarith [not_lt.mp h3], by linarith [not_lt.mp h4], by omega, by omega⟩,
    ?_, ?_, ?_, ?_, ?_⟩ <;>
    simp only [LoanApplicationSerializer_create] <;>
    rw [pyMul_100_12] <;> rfl

/-- C10 witness: the amended theorem applied to an accepted application of
1000.00 over 7 months. -/
theorem c10_witness :
    ((1000 : ℚ) ≤ 1000 ∧ (1000 : ℚ) ≤ 1000000 ∧ (6 : ℤ) ≤ 7 ∧ (7 : ℤ) ≤ 360) ∧
    (LoanApplicationSerializer_create 1000 7).interest_rate = 10 ∧
    (LoanApplicationSerializer_create 1000 7).total_interest =
      decimalRound (decimalRound (decimalRound ((1000 : ℚ) * 10) * ((7 : ℤ) : ℚ)) / 1200) ∧
    (LoanApplicationSerializer_create 1000 7).total_amount =
      decimalRound (1000 + (LoanApplicationSerializer_create 1000 7).total_interest) ∧
    (LoanApplicationSerializer_create 1000 7).monthly_payment =
      decimalRound ((LoanApplicationSerializer_create 1000 7).total_amount / ((7 : ℤ) : ℚ)) ∧
    (LoanApplicationSerializer_create 1000 7).balance_remaining =
      (LoanApplicationSerializer_create 1000 7).total_amount :=
  c10_loan_arithmetic_rounded true true 1000 7 (by
    norm_num [LoanApplicationSerializer_validate])

end RoyalShore
